import Mathlib

/-!
Shallow embedding of the authentication / authorization core of the SaaS
backend (`src/main.py`, schemas in `src/schemas.py`).

Documents of the backing store are modelled as association lists from string
keys to a small value type (the handlers only ever store strings, booleans
and Python `None` in the fields the core reads).  Python dicts preserve
insertion order and have unique keys; `Doc.set` therefore replaces the first
binding of a key in place and appends a fresh binding at the end, exactly as
dict assignment behaves on the unique-key dicts the program builds.

Randomness (`secrets.token_hex`, `secrets.token_urlsafe`) is modelled by
passing the generated value as an explicit argument; the generated MongoDB
object ids are modelled by a counter in the store.
-/

/-- Values stored in a document: the handlers store strings, booleans and
Python `None` (e.g. `avatar_url`). -/
inductive Value where
  | s (v : String)
  | b (v : Bool)
  | null
deriving DecidableEq, Repr

/-- A MongoDB document: an insertion-ordered association list of key/value
bindings, unique keys in every document the program builds. -/
abbrev Doc : Type := List (String × Value)

/-- Python `d.get(k)`: the value of the first binding of `k`, if any. -/
def Doc.get (d : Doc) (k : String) : Option Value :=
  (List.find? (fun kv => kv.1 == k) d).map (fun kv => kv.2)

/-- Python `d[k] = v` on a dict: replace the (first) binding of `k`,
or append a fresh binding at the end. -/
def Doc.set (d : Doc) (k : String) (v : Value) : Doc :=
  match d with
  | [] => [(k, v)]
  | kv :: t => if kv.1 == k then (k, v) :: t else kv :: Doc.set t k v

/-- Python `str(x)` on the values the program applies it to. -/
def pyStr : Value → Value
  | .s v => .s v
  | .b true => .s "True"
  | .b false => .s "False"
  | .null => .s "None"

/-- Python `str(x)` where `x` may be a missing lookup (`None`). -/
def pyStrOpt : Option Value → Value
  | some v => pyStr v
  | none => .s "None"

/-- The dict comprehension of `signup`/`login` (main.py lines 79 and 94):
`{k: v for k, v in d.items() if k not in ("password_hash", "salt")}`. -/
def publicOf (d : Doc) : Doc :=
  List.filter (fun kv => !(kv.1 == "password_hash" || kv.1 == "salt")) d

/-- Decidable check that a document carries neither of the two secret keys. -/
def noSecretB (d : Doc) : Bool :=
  List.all d (fun kv => !(kv.1 == "password_hash" || kv.1 == "salt"))

/-- Option coercion used where the handlers pass `user.get(k)` into a
function expecting a string: a stored string becomes that string; a missing
field or a stored `None` is Python `None`.  (The program never stores
non-string values in the credential fields.) -/
def asPyStr : Option Value → Option String
  | some (.s v) => some v
  | _ => none

/-- Optional strings of request bodies (`slug: Optional[str]`). -/
def optVal : Option String → Value
  | some v => .s v
  | none => .null

-- -----------------
-- Utility functions (main.py lines 24-32)
-- -----------------

/-- Modelled collaborator: `hashlib.pbkdf2_hmac("sha256", password, salt,
100_000)` is an external library primitive (not part of this repository);
it is modelled as a deterministic function of the password and the salt,
with distinct outputs for distinct inputs standing in for collision
resistance. -/
def pbkdf2_hmac_sha256 (password salt : String) : String :=
  "pbkdf2:" ++ toString password.length ++ ":" ++ password ++ ":" ++ salt

/-- Embeds `hash_password` (main.py lines 24-27).  `salt or
secrets.token_hex(16)` uses the fresh random salt when the argument is
`None` or the empty string (both falsy in Python); `freshSalt` models
`secrets.token_hex(16)`. -/
def hash_password (password : String) (salt : Option String) (freshSalt : String) :
    String × String :=
  let s := match salt with
    | some t => if t == "" then freshSalt else t
    | none => freshSalt
  (pbkdf2_hmac_sha256 password s, s)

/-- Outcome of a Python call that may raise a non-HTTP exception. -/
inductive PyResult (α : Type) where
  | ok (val : α)
  | exn (msg : String)
deriving DecidableEq, Repr

/-- Modelled collaborator: `secrets.compare_digest(a, b)` compares two
strings in constant time (timing is outside the model), raising `TypeError`
when an argument is `None` rather than `str`/`bytes`. -/
def compare_digest (a : String) (b : Option String) : PyResult Bool :=
  match b with
  | none => .exn "TypeError"
  | some bs => .ok (a == bs)

/-- Embeds `verify_password` (main.py lines 30-32).  The stored hash and
salt are `Option String` because `login` passes `user.get(...)`, which is
`None` when the field is missing. -/
def verify_password (password : String) (password_hash salt : Option String)
    (freshSalt : String) : PyResult Bool :=
  let computed := (hash_password password salt freshSalt).1
  compare_digest computed password_hash

-- -----------------
-- Store and collaborator interface
-- -----------------

/-- The backing document store: the collections the auth/org core touches,
plus a counter from which generated object ids are drawn. -/
structure Store where
  user : List Doc
  session : List Doc
  membership : List Doc
  organization : List Doc
  nextId : Nat
deriving DecidableEq, Repr

/-- The id generator of the store. -/
def newId (n : Nat) : String := "oid" ++ toString n

/-- Modelled from the spec: `insert(collection, document) -> generatedId` —
the `database` module providing `create_document` is not under `src/`; per
the spec the store persists the document in the named collection under a
generated id and returns that id. -/
def create_document (st : Store) (coll : String) (doc : Doc) : String × Store :=
  let id := newId st.nextId
  let doc2 := Doc.set doc "_id" (.s id)
  let st2 := { st with nextId := st.nextId + 1 }
  (id, match coll with
    | "user" => { st2 with user := st2.user ++ [doc2] }
    | "session" => { st2 with session := st2.session ++ [doc2] }
    | "membership" => { st2 with membership := st2.membership ++ [doc2] }
    | "organization" => { st2 with organization := st2.organization ++ [doc2] }
    | _ => st2)

/-- The empty store. -/
def emptyStore : Store := ⟨[], [], [], [], 0⟩

/-- Result of a handler: a value, an `HTTPException(status, detail)`, or an
uncaught Python exception (which FastAPI surfaces as a 500). -/
inductive Outcome (α : Type) where
  | ok (val : α)
  | err (status : Nat) (detail : String)
  | exn (msg : String)
deriving DecidableEq, Repr

/-- Response model of the auth endpoints (`SessionResponse`). -/
structure SessionResponse where
  token : String
  user : Doc
deriving DecidableEq, Repr

/-- The MongoDB filter `{"email": email}` as a predicate on documents. -/
def emailPred (email : String) (d : Doc) : Bool :=
  decide (Doc.get d "email" = some (Value.s email))

-- -----------------
-- Auth endpoints (main.py lines 57-96)
-- -----------------

/-- Embeds `signup` (main.py lines 57-80).  `freshSalt` models
`secrets.token_hex(16)` inside `hash_password`; `token` models
`secrets.token_urlsafe(32)`.  The store `db` is taken as configured. -/
def signup (st : Store) (name email password freshSalt token : String) :
    Outcome SessionResponse × Store :=
  let existing := List.filter (emailPred email) st.user
  if !existing.isEmpty then
    (.err 400 "Email already registered", st)
  else
    let hs := hash_password password none freshSalt
    let user_doc : Doc :=
      [("name", .s name), ("email", .s email), ("password_hash", .s hs.1),
       ("salt", .s hs.2), ("is_active", .b true), ("avatar_url", .null)]
    let ins := create_document st "user" user_doc
    let user_id := ins.1
    let ins2 := create_document ins.2 "session" [("user_id", .s user_id), ("token", .s token)]
    let user_doc2 := Doc.set user_doc "_id" (.s user_id)
    let user_public := publicOf user_doc2
    (.ok { token := token, user := user_public }, ins2.2)

/-- Embeds `login` (main.py lines 83-96).  `find_one` returns the first
matching document.  A `TypeError` escaping `verify_password` propagates as
an uncaught exception. -/
def login (st : Store) (email password freshSalt token : String) :
    Outcome SessionResponse × Store :=
  match List.find? (emailPred email) st.user with
  | none => (.err 401 "Invalid credentials", st)
  | some user =>
    match verify_password password (asPyStr (Doc.get user "password_hash"))
        (asPyStr (Doc.get user "salt")) freshSalt with
    | .exn m => (.exn m, st)
    | .ok false => (.err 401 "Invalid credentials", st)
    | .ok true =>
      let ins := create_document st "session"
        [("user_id", pyStrOpt (Doc.get user "_id")), ("token", .s token)]
      let up := publicOf user
      let up2 := match Doc.get up "_id" with
        | some v => Doc.set up "_id" (pyStr v)
        | none => Doc.set up "_id" .null
      (.ok { token := token, user := up2 }, ins.2)

-- -----------------
-- Token resolution dependency (main.py lines 105-112)
-- -----------------

/-- Loop of the `str.replace` model: scans left to right, replacing each
non-overlapping occurrence of `old` and resuming after it; the fuel (always
instantiated to more than the length of the scanned text) makes the
recursion structural. -/
def replaceLoop (old new : List Char) : Nat → List Char → List Char
  | 0, s => s
  | _ + 1, [] => []
  | fuel + 1, c :: t =>
    if List.isPrefixOf old (c :: t) then
      new ++ replaceLoop old new fuel (List.drop (old.length - 1) t)
    else
      c :: replaceLoop old new fuel t

/-- Modelled collaborator: Python `s.replace(old, new)` replaces every
non-overlapping occurrence of `old` in `s`, scanning left to right (the
program only calls it with the non-empty pattern `"Bearer "`). -/
def pyReplace (s old new : String) : String :=
  ⟨replaceLoop old.data new.data (s.data.length + 1) s.data⟩

/-- Embeds `get_user_by_token` (main.py lines 105-112).  `if not
authorization` rejects a missing header and the empty string (both falsy);
`authorization.replace("Bearer ", "")` removes every occurrence of the
substring; the session is then looked up by exact token match.
`AuthedUser(user_id=...)` raises a validation error when the session's
`user_id` is not a string. -/
def get_user_by_token (st : Store) (authorization : Option String) : Outcome String :=
  match authorization with
  | none => .err 401 "Missing token"
  | some a =>
    if a == "" then .err 401 "Missing token"
    else
      let token := pyReplace a "Bearer " ""
      match List.find? (fun d => decide (Doc.get d "token" = some (Value.s token))) st.session with
      | none => .err 401 "Invalid token"
      | some sess =>
        match Doc.get sess "user_id" with
        | some (Value.s uid) => .ok uid
        | _ => .exn "ValidationError"

-- -----------------
-- Org membership (main.py lines 142-191)
-- -----------------

/-- The MongoDB filter `{"org_id": org_id, "user_id": user_id}` on the
membership collection. -/
def memMatches (org_id user_id : String) (d : Doc) : Bool :=
  decide (Doc.get d "org_id" = some (Value.s org_id)) &&
    decide (Doc.get d "user_id" = some (Value.s user_id))

/-- Embeds `ensure_member` (main.py lines 142-148), with the store taken as
configured (the `db is None` branch is a 500). -/
def ensure_member (st : Store) (org_id user_id : String) : Outcome Doc :=
  match List.find? (memMatches org_id user_id) st.membership with
  | none => .err 403 "Not a member of this organization"
  | some mem => .ok mem

/-- Embeds `create_org` (main.py lines 151-156); `au` is the user id
resolved by `get_user_by_token`. -/
def create_org (st : Store) (name : String) (slug : Option String) (au : String) :
    String × Store :=
  let org_doc : Doc := [("name", .s name), ("slug", optVal slug), ("owner_id", .s au)]
  let ins := create_document st "organization" org_doc
  let org_id := ins.1
  let ins2 := create_document ins.2 "membership"
    [("org_id", .s org_id), ("user_id", .s au), ("role", .s "owner")]
  (org_id, ins2.2)

/-- Body of the invite response: `{"status": "exists"}` or `{"id": mid}`. -/
inductive InviteResult where
  | statusExists
  | created (id : String)
deriving DecidableEq, Repr

/-- Embeds `invite_member` (main.py lines 182-191); `au` is the resolved
caller, `body_user_id`/`body_role` the `OrgInvite` body (`role` defaults to
"member" at the request layer but any string is accepted). -/
def invite_member (st : Store) (org_id body_user_id body_role au : String) :
    Outcome InviteResult × Store :=
  match ensure_member st org_id au with
  | .err c d => (.err c d, st)
  | .exn m => (.exn m, st)
  | .ok mem =>
    if ¬(Doc.get mem "role" = some (Value.s "owner") ∨
         Doc.get mem "role" = some (Value.s "admin")) then
      (.err 403 "Insufficient role", st)
    else
      match List.find? (memMatches org_id body_user_id) st.membership with
      | some _ => (.ok .statusExists, st)
      | none =>
        let ins := create_document st "membership"
          [("org_id", .s org_id), ("user_id", .s body_user_id), ("role", .s body_role)]
        (.ok (.created ins.1), ins.2)

/-- Decidable check that a membership row's role lies in the documented set
`{owner, admin, member}` (schemas.py line 38). -/
def roleOkB (d : Doc) : Bool :=
  decide (Doc.get d "role" = some (Value.s "owner")) ||
    decide (Doc.get d "role" = some (Value.s "admin")) ||
    decide (Doc.get d "role" = some (Value.s "member"))

/-- Concrete account document produced by the sample signup
`signup emptyStore "Ada" "ada@x.com" "secret" "r0" "tok0"`. -/
def adaUserDoc : Doc :=
  [("name", Value.s "Ada"), ("email", Value.s "ada@x.com"),
   ("password_hash", Value.s "pbkdf2:6:secret:r0"), ("salt", Value.s "r0"),
   ("is_active", Value.b true), ("avatar_url", Value.null), ("_id", Value.s "oid0")]

/-- The public projection of `adaUserDoc`. -/
def adaPublicDoc : Doc :=
  [("name", Value.s "Ada"), ("email", Value.s "ada@x.com"),
   ("is_active", Value.b true), ("avatar_url", Value.null), ("_id", Value.s "oid0")]

/-- Store state after the sample signup. -/
def adaStore : Store :=
  { user := [adaUserDoc],
    session := [[("user_id", Value.s "oid0"), ("token", Value.s "tok0"), ("_id", Value.s "oid1")]],
    membership := [], organization := [], nextId := 2 }

/-- Store state after a subsequent login with token `"tok1"`. -/
def adaStoreAfterLogin : Store :=
  { adaStore with
    session := adaStore.session ++
      [[("user_id", Value.s "oid0"), ("token", Value.s "tok1"), ("_id", Value.s "oid2")]],
    nextId := 3 }

-- -----------------
-- Helper lemmas on documents
-- -----------------

/-- The public projection never carries the two secret keys. -/
theorem noSecretB_publicOf (d : Doc) : noSecretB (publicOf d) = true := by
  simp only [noSecretB, publicOf, List.all_eq_true, List.mem_filter]
  intro kv hkv
  exact hkv.2

/-- Filtering out the secret keys does not change the lookup of any other
key. -/
theorem get_publicOf (d : Doc) (k : String) (h1 : k ≠ "password_hash") (h2 : k ≠ "salt") :
    Doc.get (publicOf d) k = Doc.get d k := by
  unfold Doc.get publicOf
  rw [List.find?_filter]
  congr 1
  refine congrFun (congrArg List.find? (funext fun a => ?_)) d
  by_cases hk : a.1 = k
  · subst hk
    simp [h1, h2]
  · simp [hk]

/-- Writing back the value a key already holds leaves the document
unchanged. -/
theorem set_get_eq (d : Doc) (k : String) (v : Value) (h : Doc.get d k = some v) :
    Doc.set d k v = d := by
  induction d with
  | nil => simp [Doc.get] at h
  | cons kv t ih =>
    obtain ⟨k0, v0⟩ := kv
    by_cases hk : (k0 == k) = true
    · have hkeq : k0 = k := by simpa using hk
      have hv : v0 = v := by
        simp only [Doc.get, List.find?_cons, hk] at h
        simpa using h
      subst hkeq
      subst hv
      simp [Doc.set]
    · have hk' : (k0 == k) = false := by simpa using hk
      simp only [Doc.get, List.find?_cons, hk'] at h
      simp [Doc.set, hk', ih h]

/-- Setting a non-secret key preserves secret-freeness. -/
theorem noSecretB_set (d : Doc) (k : String) (v : Value) (h1 : k ≠ "password_hash")
    (h2 : k ≠ "salt") (hd : noSecretB d = true) : noSecretB (Doc.set d k v) = true := by
  induction d with
  | nil => simp [Doc.set, noSecretB, h1, h2]
  | cons kv t ih =>
    obtain ⟨k0, v0⟩ := kv
    simp only [noSecretB, List.all_cons, Bool.and_eq_true] at hd
    by_cases hk : (k0 == k) = true
    · simp only [Doc.set, hk, if_pos]
      simp only [noSecretB, List.all_cons, Bool.and_eq_true]
      exact ⟨by simp [h1, h2], hd.2⟩
    · have hk' : (k0 == k) = false := by simpa using hk
      simp only [Doc.set, hk', Bool.false_eq_true, if_neg, not_false_iff]
      simp only [noSecretB, List.all_cons, Bool.and_eq_true]
      exact ⟨hd.1, ih hd.2⟩

-- -----------------
-- Claim theorems
-- -----------------

/-- C2 (amended): for every password `p`, every NON-EMPTY salt string `s` and
any fresh salts drawn by the two calls, verifying `p` against the hash
produced by hashing `p` with salt `s` returns true:
`verify_password(p, hash_password(p, s).hash, s) == True`.  (For `s = ""` the
code discards the given salt — see the counterexample.) -/
theorem verify_hash_roundtrip (p s f1 f2 : String) (hs : s ≠ "") :
    verify_password p (some (hash_password p (some s) f1).1) (some s) f2 =
      PyResult.ok true := by
  have hb : (s == "") = false := by simp [hs]
  simp [verify_password, hash_password, compare_digest, hb]

/-- Witness for C2 at `p = "pw"`, `s = "na"`. -/
theorem verify_hash_roundtrip_witness :
    ("na" : String) ≠ "" ∧
      verify_password "pw" (some (hash_password "pw" (some "na") "f1").1) (some "na") "f2" =
        PyResult.ok true :=
  ⟨by decide, verify_hash_roundtrip "pw" "na" "f1" "f2" (by decide)⟩

/-- C2 counterexample: with the salt `""`, `hash_password` treats the salt as
absent (`salt or secrets.token_hex(16)` — empty string is falsy) and hashes
with a fresh random salt; the verification call then re-draws another fresh
salt, so the round trip fails. -/
theorem verify_hash_roundtrip_empty_salt_cex :
    verify_password "pw" (some (hash_password "pw" (some "") "r1").1) (some "") "r2" =
      PyResult.ok false := by decide

/-- C3 (code evaluated at the failing input): logging in against a stored
user document that lacks the `password_hash` field does not report a
verification failure — `secrets.compare_digest(computed, None)` raises
`TypeError`, an uncaught exception (HTTP 500), instead of the claimed
`False`/401. -/
theorem login_missing_hash_crash :
    login
        { emptyStore with
          user := [[("_id", Value.s "u1"), ("email", Value.s "e@x"),
                    ("salt", Value.s "s1")]] }
        "e@x" "pw" "f0" "t0" =
      (Outcome.exn "TypeError",
       { emptyStore with
         user := [[("_id", Value.s "u1"), ("email", Value.s "e@x"),
                   ("salt", Value.s "s1")]] }) := by decide

/-- C5: for every store already containing an account with email `e`, signup
with `e` fails with the 400 conflict error and returns the store unchanged —
no second account and no session are persisted. -/
theorem signup_duplicate_email_conflict (st : Store)
    (name email password freshSalt token : String)
    (h : ∃ d ∈ st.user, Doc.get d "email" = some (Value.s email)) :
    signup st name email password freshSalt token =
      (Outcome.err 400 "Email already registered", st) := by
  have hne : List.filter (emailPred email) st.user ≠ [] := by
    obtain ⟨d, hd, he⟩ := h
    intro hnil
    have := List.filter_eq_nil_iff.mp hnil d hd
    simp [emailPred, he] at this
  have hemp : (List.filter (emailPred email) st.user).isEmpty = false := by
    simp [List.isEmpty_iff, hne]
  simp [signup, hemp]

/-- Witness for C5 on a one-account store. -/
theorem signup_duplicate_email_conflict_witness :
    (∃ d ∈ ({ emptyStore with user := [[("email", Value.s "a@x")]] } : Store).user,
        Doc.get d "email" = some (Value.s "a@x")) ∧
      signup { emptyStore with user := [[("email", Value.s "a@x")]] } "N" "a@x" "p" "f" "t" =
        (Outcome.err 400 "Email already registered",
         { emptyStore with user := [[("email", Value.s "a@x")]] }) :=
  ⟨by decide,
   signup_duplicate_email_conflict _ "N" "a@x" "p" "f" "t" (by decide)⟩

/-- C8: the invite guard is set membership over exactly `{owner, admin}`: a
caller with no membership row for the org gets 403 "Not a member of this
organization"; a caller whose row has role "member" gets 403 "Insufficient
role"; a caller whose row has role "owner" or "admin" passes the guard (the
handler answers without a 403). -/
theorem invite_role_guard (st : Store) (org bu role au : String) :
    (List.find? (memMatches org au) st.membership = none →
      invite_member st org bu role au =
        (Outcome.err 403 "Not a member of this organization", st)) ∧
    (∀ mem, List.find? (memMatches org au) st.membership = some mem →
      ((Doc.get mem "role" = some (Value.s "member") →
          invite_member st org bu role au = (Outcome.err 403 "Insufficient role", st)) ∧
       ((Doc.get mem "role" = some (Value.s "owner") ∨
           Doc.get mem "role" = some (Value.s "admin")) →
         ∃ r st2, invite_member st org bu role au = (Outcome.ok r, st2)))) := by
  refine ⟨fun hnone => ?_, fun mem hsome => ⟨fun hmem => ?_, fun hrole => ?_⟩⟩
  · simp [invite_member, ensure_member, hnone]
  · have hno : ¬(Doc.get mem "role" = some (Value.s "owner") ∨
        Doc.get mem "role" = some (Value.s "admin")) := by
      rw [hmem]
      rintro (h | h) <;> simp at h
    simp [invite_member, ensure_member, hsome, hno]
  · simp only [invite_member, ensure_member, hsome]
    rw [if_neg (not_not_intro hrole)]
    cases hfind : List.find? (memMatches org bu) st.membership with
    | some x => exact ⟨.statusExists, st, rfl⟩
    | none => exact ⟨_, _, rfl⟩

/-- Witness for C8 on a three-row store: no row for caller "nob", a
member-role row for "mia", an admin-role row for "ada". -/
theorem invite_role_guard_witness :
    (invite_member
        { emptyStore with
          membership := [[("org_id", Value.s "o1"), ("user_id", Value.s "mia"),
                          ("role", Value.s "member")],
                         [("org_id", Value.s "o1"), ("user_id", Value.s "ada"),
                          ("role", Value.s "admin")]] }
        "o1" "bob" "member" "nob" =
      (Outcome.err 403 "Not a member of this organization",
       { emptyStore with
         membership := [[("org_id", Value.s "o1"), ("user_id", Value.s "mia"),
                         ("role", Value.s "member")],
                        [("org_id", Value.s "o1"), ("user_id", Value.s "ada"),
                         ("role", Value.s "admin")]] })) ∧
    (invite_member
        { emptyStore with
          membership := [[("org_id", Value.s "o1"), ("user_id", Value.s "mia"),
                          ("role", Value.s "member")],
                         [("org_id", Value.s "o1"), ("user_id", Value.s "ada"),
                          ("role", Value.s "admin")]] }
        "o1" "bob" "member" "mia" =
      (Outcome.err 403 "Insufficient role",
       { emptyStore with
         membership := [[("org_id", Value.s "o1"), ("user_id", Value.s "mia"),
                         ("role", Value.s "member")],
                        [("org_id", Value.s "o1"), ("user_id", Value.s "ada"),
                         ("role", Value.s "admin")]] })) ∧
    (∃ r st2,
      invite_member
        { emptyStore with
          membership := [[("org_id", Value.s "o1"), ("user_id", Value.s "mia"),
                          ("role", Value.s "member")],
                         [("org_id", Value.s "o1"), ("user_id", Value.s "ada"),
                          ("role", Value.s "admin")]] }
        "o1" "bob" "member" "ada" = (Outcome.ok r, st2)) :=
  ⟨(invite_role_guard _ "o1" "bob" "member" "nob").1 (by decide),
   ((invite_role_guard _ "o1" "bob" "member" "mia").2
      [("org_id", Value.s "o1"), ("user_id", Value.s "mia"), ("role", Value.s "member")]
      (by decide)).1 (by decide),
   ((invite_role_guard _ "o1" "bob" "member" "ada").2
      [("org_id", Value.s "o1"), ("user_id", Value.s "ada"), ("role", Value.s "admin")]
      (by decide)).2 (Or.inr (by decide))⟩

/-- C10: invite performs no existence check on the invited user: for an
authorized caller (owner or admin row) and an invited id `bu` with no
membership row for `(org, bu)`, the invite succeeds and appends a membership
row for `(org, bu)` with the requested role, even though no account document
with id `bu` exists in the store. -/
theorem invite_no_account_check (st : Store) (org bu role au : String) (mem : Doc)
    (h1 : List.find? (memMatches org au) st.membership = some mem)
    (h2 : Doc.get mem "role" = some (Value.s "owner") ∨
          Doc.get mem "role" = some (Value.s "admin"))
    (h3 : List.find? (memMatches org bu) st.membership = none)
    (_h4 : ∀ d ∈ st.user, ¬Doc.get d "_id" = some (Value.s bu)) :
    ∃ mid st2, invite_member st org bu role au = (Outcome.ok (.created mid), st2) ∧
      ∃ d, st2.membership = st.membership ++ [d] ∧
        Doc.get d "org_id" = some (Value.s org) ∧
        Doc.get d "user_id" = some (Value.s bu) ∧
        Doc.get d "role" = some (Value.s role) := by
  simp only [invite_member, ensure_member, h1]
  rw [if_neg (not_not_intro h2), h3]
  simp only [create_document]
  refine ⟨newId st.nextId, _, rfl, ?_⟩
  refine ⟨Doc.set [("org_id", Value.s org), ("user_id", Value.s bu),
      ("role", Value.s role)] "_id" (Value.s (newId st.nextId)), rfl, ?_, ?_, ?_⟩ <;>
    simp [Doc.set, Doc.get, List.find?]

/-- Witness for C10: an empty user collection (so certainly no account with
id "ghost") and an owner caller. -/
theorem invite_no_account_check_witness :
    ∃ mid st2,
      invite_member
          { emptyStore with
            membership := [[("org_id", Value.s "o2"), ("user_id", Value.s "own"),
                            ("role", Value.s "owner")]] }
          "o2" "ghost" "member" "own" = (Outcome.ok (.created mid), st2) ∧
        ∃ d, st2.membership =
            ({ emptyStore with
               membership := [[("org_id", Value.s "o2"), ("user_id", Value.s "own"),
                               ("role", Value.s "owner")]] } : Store).membership ++ [d] ∧
          Doc.get d "org_id" = some (Value.s "o2") ∧
          Doc.get d "user_id" = some (Value.s "ghost") ∧
          Doc.get d "role" = some (Value.s "member") :=
  invite_no_account_check _ "o2" "ghost" "member" "own"
    [("org_id", Value.s "o2"), ("user_id", Value.s "own"), ("role", Value.s "owner")]
    (by decide) (Or.inl (by decide)) (by decide) (by decide)

/-- C7: membership creation is idempotent.  First conjunct: when a row for
`(org, bu)` already exists, an invite by an authorized caller returns the
"exists" status and leaves the store — and hence the existing row, whatever
role the re-invite names — completely unchanged.  Second conjunct: for every
`(o, u)` pair, the invite operation never raises the number of matching
membership rows above `max(previous count, 1)`, so "at most one membership
row per (org_id, user_id) pair" is preserved. -/
theorem invite_idempotent (st : Store) (org bu role au : String) :
    (∀ mem, ensure_member st org au = Outcome.ok mem →
      (Doc.get mem "role" = some (Value.s "owner") ∨
        Doc.get mem "role" = some (Value.s "admin")) →
      (List.find? (memMatches org bu) st.membership).isSome = true →
      invite_member st org bu role au = (Outcome.ok .statusExists, st)) ∧
    (∀ o u,
      (List.filter (memMatches o u) (invite_member st org bu role au).2.membership).length ≤
        max (List.filter (memMatches o u) st.membership).length 1) := by
  constructor
  · intro mem hens hrole hsome
    cases hfind : List.find? (memMatches org bu) st.membership with
    | none => rw [hfind] at hsome; simp at hsome
    | some x =>
      simp only [invite_member, hens]
      rw [if_neg (not_not_intro hrole), hfind]
  · intro o u
    cases hens : ensure_member st org au with
    | err c d => simp [invite_member, hens, Nat.le_max_left]
    | exn m => simp [invite_member, hens, Nat.le_max_left]
    | ok mem =>
      simp only [invite_member, hens]
      by_cases hrole : Doc.get mem "role" = some (Value.s "owner") ∨
          Doc.get mem "role" = some (Value.s "admin")
      · rw [if_neg (not_not_intro hrole)]
        cases hfind : List.find? (memMatches org bu) st.membership with
        | some x => exact Nat.le_max_left _ _
        | none =>
          simp only [create_document, List.filter_append]
          cases hmatch : memMatches o u
              (Doc.set [("org_id", Value.s org), ("user_id", Value.s bu),
                ("role", Value.s role)] "_id" (Value.s (newId st.nextId))) with
          | false => simp [List.filter_cons, hmatch, Nat.le_max_left]
          | true =>
            have hou : o = org ∧ u = bu := by
              simp only [memMatches, Bool.and_eq_true, decide_eq_true_eq] at hmatch
              obtain ⟨ho, hu⟩ := hmatch
              simp [Doc.set, Doc.get, List.find?] at ho hu
              exact ⟨ho.symm, hu.symm⟩
            obtain ⟨ho, hu⟩ := hou
            subst ho
            subst hu
            have hnil : List.filter (memMatches o u) st.membership = [] := by
              rw [List.filter_eq_nil_iff]
              intro a ha
              have := List.find?_eq_none.mp hfind a ha
              simp [this]
            simp [List.filter_cons, hmatch, hnil]
      · rw [if_pos hrole]
        exact Nat.le_max_left _ _

/-- Witness for C7: a store with an owner row for the caller and an existing
row for the invited pair; the re-invite (with a different role) returns
"exists" and the store is unchanged, and the counting bound holds at the
pair. -/
theorem invite_idempotent_witness :
    invite_member
        { emptyStore with
          membership := [[("org_id", Value.s "o3"), ("user_id", Value.s "eva"),
                          ("role", Value.s "owner")],
                         [("org_id", Value.s "o3"), ("user_id", Value.s "sam"),
                          ("role", Value.s "member")]] }
        "o3" "sam" "admin" "eva" =
      (Outcome.ok .statusExists,
       { emptyStore with
         membership := [[("org_id", Value.s "o3"), ("user_id", Value.s "eva"),
                         ("role", Value.s "owner")],
                        [("org_id", Value.s "o3"), ("user_id", Value.s "sam"),
                         ("role", Value.s "member")]] }) :=
  (invite_idempotent _ "o3" "sam" "admin" "eva").1
    [("org_id", Value.s "o3"), ("user_id", Value.s "eva"), ("role", Value.s "owner")]
    (by decide) (Or.inl (by decide)) (by decide)

/-- C9 counterexample (claim as stated is false): starting from the empty
store, user "u0" creates an org (getting id "oid0" and an owner membership)
and then, as an authorized owner, invites "v1" with role "superuser"; the
resulting reachable store contains a membership row whose role is outside
{owner, admin, member}. -/
theorem membership_role_unvalidated_cex :
    List.all
      (invite_member (create_org emptyStore "Acme" none "u0").2 "oid0" "v1" "superuser"
          "u0").2.membership roleOkB = false := by decide

/-- C9 (amended): org creation only ever adds membership rows with role
"owner", and invite adds a row carrying exactly the request's role string —
unvalidated — so the role-set invariant is preserved exactly when the
invited role lies in {owner, admin, member}. -/
theorem membership_roles_created (st : Store) (n : String) (slug : Option String)
    (org bu role au : String) :
    (List.all st.membership roleOkB = true →
      List.all (create_org st n slug au).2.membership roleOkB = true) ∧
    (List.all st.membership roleOkB = true →
      (role = "owner" ∨ role = "admin" ∨ role = "member") →
      List.all (invite_member st org bu role au).2.membership roleOkB = true) := by
  constructor
  · intro hall
    simp only [create_org, create_document, List.all_append, Bool.and_eq_true]
    refine ⟨hall, ?_⟩
    simp [roleOkB, Doc.set, Doc.get, List.find?]
  · intro hall hrole
    cases hens : ensure_member st org au with
    | err c d => simpa [invite_member, hens] using hall
    | exn m => simpa [invite_member, hens] using hall
    | ok mem =>
      simp only [invite_member, hens]
      by_cases hr : Doc.get mem "role" = some (Value.s "owner") ∨
          Doc.get mem "role" = some (Value.s "admin")
      · rw [if_neg (not_not_intro hr)]
        cases hfind : List.find? (memMatches org bu) st.membership with
        | some x => exact hall
        | none =>
          simp only [create_document, List.all_append, Bool.and_eq_true]
          refine ⟨hall, ?_⟩
          rcases hrole with h | h | h <;> subst h <;>
            simp [roleOkB, Doc.set, Doc.get, List.find?]
      · rw [if_pos hr]
        exact hall

/-- Witness for C9's amended theorem on a one-owner-row store with an
in-set invited role. -/
theorem membership_roles_created_witness :
    (List.all
        ({ emptyStore with
           membership := [[("org_id", Value.s "o4"), ("user_id", Value.s "kay"),
                           ("role", Value.s "owner")]] } : Store).membership roleOkB = true →
      List.all
        (create_org
            { emptyStore with
              membership := [[("org_id", Value.s "o4"), ("user_id", Value.s "kay"),
                              ("role", Value.s "owner")]] }
            "Org" none "kay").2.membership roleOkB = true) ∧
    List.all
      (invite_member
          { emptyStore with
            membership := [[("org_id", Value.s "o4"), ("user_id", Value.s "kay"),
                            ("role", Value.s "owner")]] }
          "o4" "lee" "admin" "kay").2.membership roleOkB = true :=
  ⟨(membership_roles_created _ "Org" none "o4" "lee" "admin" "kay").1,
   (membership_roles_created _ "Org" none "o4" "lee" "admin" "kay").2 (by decide)
     (Or.inr (Or.inl (by decide)))⟩

/-- C6: login failure is indistinguishable between the two causes — an email
matching no account and an email matching an account whose password does not
verify both yield the very same `(401, "Invalid credentials")` error with the
store untouched — while a verifying password yields success carrying exactly
the freshly generated token. -/
theorem login_generic_invalid_credentials (st : Store)
    (email password freshSalt token : String) :
    (List.find? (emailPred email) st.user = none →
      login st email password freshSalt token =
        (Outcome.err 401 "Invalid credentials", st)) ∧
    (∀ d, List.find? (emailPred email) st.user = some d →
      ((verify_password password (asPyStr (Doc.get d "password_hash"))
          (asPyStr (Doc.get d "salt")) freshSalt = PyResult.ok false →
        login st email password freshSalt token =
          (Outcome.err 401 "Invalid credentials", st)) ∧
       (verify_password password (asPyStr (Doc.get d "password_hash"))
          (asPyStr (Doc.get d "salt")) freshSalt = PyResult.ok true →
        ∃ r st2, login st email password freshSalt token = (Outcome.ok r, st2) ∧
          r.token = token))) := by
  refine ⟨fun hnone => ?_, fun d hsome => ⟨fun hv => ?_, fun hv => ?_⟩⟩
  · simp [login, hnone]
  · simp [login, hsome, hv]
  · simp only [login, hsome, hv]
    exact ⟨_, _, rfl, rfl⟩

/-- Witness for C6 on a one-account store (stored hash of "pw" under salt
"ss"): unknown email and wrong password produce the identical error; the
right password succeeds with the fresh token. -/
theorem login_generic_invalid_credentials_witness :
    (login
        { emptyStore with
          user := [[("_id", Value.s "u9"), ("email", Value.s "bo@x"),
                    ("password_hash", Value.s "pbkdf2:2:pw:ss"),
                    ("salt", Value.s "ss")]] }
        "zz@x" "pw" "f" "tok9" =
      (Outcome.err 401 "Invalid credentials",
       { emptyStore with
         user := [[("_id", Value.s "u9"), ("email", Value.s "bo@x"),
                   ("password_hash", Value.s "pbkdf2:2:pw:ss"),
                   ("salt", Value.s "ss")]] })) ∧
    (login
        { emptyStore with
          user := [[("_id", Value.s "u9"), ("email", Value.s "bo@x"),
                    ("password_hash", Value.s "pbkdf2:2:pw:ss"),
                    ("salt", Value.s "ss")]] }
        "bo@x" "bad" "f" "tok9" =
      (Outcome.err 401 "Invalid credentials",
       { emptyStore with
         user := [[("_id", Value.s "u9"), ("email", Value.s "bo@x"),
                   ("password_hash", Value.s "pbkdf2:2:pw:ss"),
                   ("salt", Value.s "ss")]] })) ∧
    (∃ r st2,
      login
          { emptyStore with
            user := [[("_id", Value.s "u9"), ("email", Value.s "bo@x"),
                      ("password_hash", Value.s "pbkdf2:2:pw:ss"),
                      ("salt", Value.s "ss")]] }
          "bo@x" "pw" "f" "tok9" = (Outcome.ok r, st2) ∧ r.token = "tok9") :=
  ⟨(login_generic_invalid_credentials _ "zz@x" "pw" "f" "tok9").1 (by decide),
   ((login_generic_invalid_credentials _ "bo@x" "bad" "f" "tok9").2
      [("_id", Value.s "u9"), ("email", Value.s "bo@x"),
       ("password_hash", Value.s "pbkdf2:2:pw:ss"), ("salt", Value.s "ss")]
      (by decide)).1 (by decide),
   ((login_generic_invalid_credentials _ "bo@x" "pw" "f" "tok9").2
      [("_id", Value.s "u9"), ("email", Value.s "bo@x"),
       ("password_hash", Value.s "pbkdf2:2:pw:ss"), ("salt", Value.s "ss")]
      (by decide)).2 (by decide)⟩

/-- C4 counterexample (claim as stated is false): the header "aBearer bc"
does not start with "Bearer ", so by the claim the session lookup should use
the token "aBearer bc" verbatim — which matches no session — and fail with
401; the code instead removes the non-leading occurrence of "Bearer " and
authenticates as the session's user "u7". -/
theorem get_user_by_token_nonleading_strip_cex :
    get_user_by_token
        { emptyStore with
          session := [[("_id", Value.s "s0"), ("user_id", Value.s "u7"),
                       ("token", Value.s "abc")]] }
        (some "aBearer bc") = Outcome.ok "u7" ∧
      List.find? (fun d => decide (Doc.get d "token" = some (Value.s "aBearer bc")))
        ({ emptyStore with
           session := [[("_id", Value.s "s0"), ("user_id", Value.s "u7"),
                        ("token", Value.s "abc")]] } : Store).session = none := by
  constructor <;> decide

/-- C4 (amended): token resolution removes EVERY occurrence of the substring
"Bearer " from the Authorization header (Python `str.replace`), not only a
leading prefix; it then looks up the session by exact match on the remaining
token, rejects a missing (or empty — falsy) header with 401 "Missing token",
answers 401 "Invalid token" when no session carries that token, and returns
the matching session's (string) user_id otherwise. -/
theorem get_user_by_token_resolution (st : Store) (a : String) :
    get_user_by_token st none = Outcome.err 401 "Missing token" ∧
    get_user_by_token st (some "") = Outcome.err 401 "Missing token" ∧
    (a ≠ "" →
      ((List.find? (fun d => decide (Doc.get d "token" =
            some (Value.s (pyReplace a "Bearer " "")))) st.session = none →
        get_user_by_token st (some a) = Outcome.err 401 "Invalid token") ∧
       (∀ sess u, List.find? (fun d => decide (Doc.get d "token" =
              some (Value.s (pyReplace a "Bearer " "")))) st.session = some sess →
          Doc.get sess "user_id" = some (Value.s u) →
          get_user_by_token st (some a) = Outcome.ok u))) := by
  refine ⟨rfl, by simp [get_user_by_token], fun ha => ⟨fun hnone => ?_, ?_⟩⟩
  · have hb : (a == "") = false := by simp [ha]
    simp [get_user_by_token, hb, hnone]
  · intro sess u hsome huid
    have hb : (a == "") = false := by simp [ha]
    simp [get_user_by_token, hb, hsome, huid]

/-- Witness for C4's amended theorem: the well-formed header "Bearer abc"
resolves to the session user "u7". -/
theorem get_user_by_token_resolution_witness :
    ("Bearer abc" : String) ≠ "" ∧
      get_user_by_token
          { emptyStore with
            session := [[("_id", Value.s "s1"), ("user_id", Value.s "u7"),
                         ("token", Value.s "abc")]] }
          (some "Bearer abc") = Outcome.ok "u7" :=
  ⟨by decide,
   ((get_user_by_token_resolution
        { emptyStore with
          session := [[("_id", Value.s "s1"), ("user_id", Value.s "u7"),
                       ("token", Value.s "abc")]] }
        "Bearer abc").2.2 (by decide)).2
     [("_id", Value.s "s1"), ("user_id", Value.s "u7"), ("token", Value.s "abc")]
     "u7" (by decide) (by decide)⟩

/-- C1: the response bodies of signup and login never contain the keys
`password_hash` or `salt`, and the returned public account is the stored
account document with exactly those two fields removed (for login: the
matched stored document, whose `_id` — always present as a string on
documents the store created — is re-written with its own `str` image). -/
theorem signup_login_redaction (st : Store) (name email password freshSalt token : String)
    (resp : SessionResponse) (st' : Store) :
    (signup st name email password freshSalt token = (Outcome.ok resp, st') →
      noSecretB resp.user = true ∧
      ∃ d, st'.user = st.user ++ [d] ∧ resp.user = publicOf d) ∧
    (login st email password freshSalt token = (Outcome.ok resp, st') →
      noSecretB resp.user = true ∧
      ∃ d, List.find? (emailPred email) st.user = some d ∧
        ∀ i, Doc.get d "_id" = some (Value.s i) → resp.user = publicOf d) := by
  constructor
  · intro h
    simp only [signup] at h
    split at h
    · exact absurd h (by simp)
    · simp only [create_document] at h
      rw [Prod.mk.injEq] at h
      obtain ⟨h1, h2⟩ := h
      rw [Outcome.ok.injEq] at h1
      subst h1
      subst h2
      exact ⟨noSecretB_publicOf _,
        Doc.set [("name", Value.s name), ("email", Value.s email),
          ("password_hash", Value.s (hash_password password none freshSalt).1),
          ("salt", Value.s (hash_password password none freshSalt).2),
          ("is_active", Value.b true), ("avatar_url", Value.null)] "_id"
          (Value.s (newId st.nextId)), rfl, rfl⟩
  · intro h
    simp only [login] at h
    cases hfind : List.find? (emailPred email) st.user with
    | none => simp only [hfind] at h; exact absurd h (by simp)
    | some d =>
      simp only [hfind] at h
      cases hv : verify_password password (asPyStr (Doc.get d "password_hash"))
          (asPyStr (Doc.get d "salt")) freshSalt with
      | exn m => simp only [hv] at h; exact absurd h (by simp)
      | ok b =>
        cases b with
        | false => simp only [hv] at h; exact absurd h (by simp)
        | true =>
          simp only [hv, create_document] at h
          rw [Prod.mk.injEq] at h
          obtain ⟨h1, h2⟩ := h
          rw [Outcome.ok.injEq] at h1
          subst h1
          subst h2
          refine ⟨?_, d, rfl, fun i hi => ?_⟩
          · cases hid : Doc.get (publicOf d) "_id" with
            | none =>
              exact noSecretB_set _ _ _ (by decide) (by decide) (noSecretB_publicOf d)
            | some v =>
              exact noSecretB_set _ _ _ (by decide) (by decide) (noSecretB_publicOf d)
          · have hid : Doc.get (publicOf d) "_id" = some (Value.s i) := by
              rw [get_publicOf d "_id" (by decide) (by decide)]
              exact hi
            rw [hid]
            exact set_get_eq _ _ _ hid

/-- Witness for C1: the sample signup from the empty store and a subsequent
login, both of which answer the public account without the secret fields. -/
theorem signup_login_redaction_witness :
    (noSecretB adaPublicDoc = true ∧
      ∃ d, adaStore.user = emptyStore.user ++ [d] ∧ adaPublicDoc = publicOf d) ∧
    (noSecretB adaPublicDoc = true ∧
      ∃ d, List.find? (emailPred "ada@x.com") adaStore.user = some d ∧
        ∀ i, Doc.get d "_id" = some (Value.s i) → adaPublicDoc = publicOf d) :=
  ⟨(signup_login_redaction emptyStore "Ada" "ada@x.com" "secret" "r0" "tok0"
      ⟨"tok0", adaPublicDoc⟩ adaStore).1 (by decide),
   (signup_login_redaction adaStore "Ada" "ada@x.com" "secret" "rX" "tok1"
      ⟨"tok1", adaPublicDoc⟩ adaStoreAfterLogin).2 (by decide)⟩
